import Mathlib

/-!
Shallow embedding of the Coderr marketplace backend (Django/DRF) domain
logic, translated from the repository sources, together with theorems
settling the frozen specification claims.

Conventions of the embedding:
* Database rows become Lean structures; integer columns become `Int`,
  primary keys become `Nat`, text columns become `String`.
* The per-request database state relevant to an operation is passed
  explicitly (lists of rows) and the operation returns the new state.
* Django/DRF framework behaviour that the spec treats as an external
  collaborator (HTTP routing, token issuance, password hashing, automatic
  timestamps) is not modelled; timestamps are omitted because no claim
  mentions them.
* A raised `serializers.ValidationError` / error `Response` is modelled by
  an error value (`Except` or an `Option String` error component); the
  state component returned alongside an error is the state as the code
  leaves it at the moment the error is produced.
-/

namespace Coderr

/-- The `Detail.OfferType` / `Order.OfferType` text-choices enum
(`offers_app/models.py`, `orders_app/models.py`): basic, standard, premium. -/
inductive OfferType where
  | basic
  | standard
  | premium
deriving DecidableEq, Repr

/-- The stored string value of an `OfferType` choice. -/
def OfferType.toStr : OfferType → String
  | .basic => "basic"
  | .standard => "standard"
  | .premium => "premium"

/-- A row of the `Detail` model (`offers_app/models.py`): one pricing tier
of an Offer.  `features` is a JSON list of strings. -/
structure Detail where
  id : Nat
  title : String
  revisions : Int
  delivery_time_in_days : Int
  price : Int
  features : List String
  offer_type : OfferType
deriving DecidableEq, Repr

/-- A row of the `Offer` model (`offers_app/models.py`) with its related
`details` rows (related_name `details`) carried inline.  `user` is the id
of the owning account. -/
structure Offer where
  id : Nat
  user : Nat
  title : String
  description : String
  min_price : Int
  min_delivery_time : Int
  details : List Detail
deriving DecidableEq, Repr

/-! ### Offer creation (`offers_app/api/serializers.py`, OfferCreateSerializer) -/

/-- One item of the nested `details` payload accepted by
`DetailSerializer`.  Its `offer_type` is a `ChoiceField`, so by the time
`validate_details` runs the value is one of the enum members. -/
structure DetailData where
  title : String
  revisions : Int
  delivery_time_in_days : Int
  price : Int
  features : List String
  offer_type : OfferType
deriving DecidableEq, Repr

/-- The payload of `OfferCreateSerializer` (fields `title`, `description`,
`details`; the optional `image` is omitted, no claim mentions it). -/
structure OfferCreatePayload where
  title : String
  description : String
  details : List DetailData
deriving DecidableEq, Repr

/-- The required offer types, `required = {'basic', 'standard', 'premium'}`
in `validate_details`. -/
def requiredTypes : List OfferType := [.basic, .standard, .premium]

/-- `types == required` in `validate_details`: equality of the set of
`offer_type` values with the required set, i.e. mutual inclusion. -/
def typesMatch (ts : List OfferType) : Bool :=
  requiredTypes.all (fun t => ts.contains t) && ts.all (fun t => requiredTypes.contains t)

/-- `OfferCreateSerializer.validate_details`: the payload must be a list of
exactly 3 items whose `offer_type` set is exactly the required set. -/
def validate_details (value : List DetailData) : Except String (List DetailData) :=
  if value.length ≠ 3 then
    .error "An offer must contain exactly 3 details."
  else if ¬ typesMatch (value.map (·.offer_type)) then
    .error "Details must include the types basic, standard, and premium (once each)."
  else
    .ok value

/-- `Detail.objects.create(offer=offer, **item)` for one payload item. -/
def mkDetail (did : Nat) (dd : DetailData) : Detail :=
  { id := did, title := dd.title, revisions := dd.revisions,
    delivery_time_in_days := dd.delivery_time_in_days, price := dd.price,
    features := dd.features, offer_type := dd.offer_type }

/-- The `Detail` rows created by the loop in `OfferCreateSerializer.create`,
with consecutive fresh ids starting at `base`. -/
def mkDetails (base : Nat) : List DetailData → List Detail
  | [] => []
  | dd :: rest => mkDetail base dd :: mkDetails (base + 1) rest

/-- One step of the running-minimum computation in
`OfferCreateSerializer.create`: `if min_price is None or v < min_price`. -/
def stepMin (acc : Option Int) (v : Int) : Option Int :=
  match acc with
  | none => some v
  | some m => if v < m then some v else some m

/-- `OfferCreateSerializer.create` after validation: creates the Offer row,
creates the three Detail rows while tracking the running minima, then
writes `min_price = min_price or 0` and
`min_delivery_time = min_delivery or 0` back to the Offer. -/
def createOfferCore (uid oid baseDid : Nat) (p : OfferCreatePayload) : Offer :=
  let details := mkDetails baseDid p.details
  let minPrice := (details.map (·.price)).foldl stepMin none
  let minDelivery := (details.map (·.delivery_time_in_days)).foldl stepMin none
  { id := oid, user := uid, title := p.title, description := p.description,
    min_price := minPrice.getD 0, min_delivery_time := minDelivery.getD 0,
    details := details }

/-- The CreateOffer operation: DRF runs `validate_details` during
`serializer.is_valid(raise_exception=True)` before `create` is reached, so
a validation failure aborts before any row is written. -/
def createOffer (uid oid baseDid : Nat) (p : OfferCreatePayload) : Except String Offer :=
  match validate_details p.details with
  | .error e => .error e
  | .ok v => .ok (createOfferCore uid oid baseDid { p with details := v })

/-- CreateOffer at the level of the offer store: on a validation error the
store is untouched (the error is raised before `Offer.objects.create`). -/
def createOfferInStore (store : List Offer) (uid oid baseDid : Nat)
    (p : OfferCreatePayload) : List Offer × Except String Offer :=
  match createOffer uid oid baseDid p with
  | .error e => (store, .error e)
  | .ok o => (store ++ [o], .ok o)

/-! ### Offer partial update (`offers_app/api/views.py`, OfferDetailView.patch) -/

/-- One item of the `details` payload of a PATCH request: a JSON object
whose `offer_type` key (a raw string, possibly absent) selects the Detail
row, and whose remaining keys are the fields to overwrite.  An absent key
is `none` (`if f in item`). -/
structure DetailUpdate where
  offer_type : Option String
  title : Option String
  revisions : Option Int
  delivery_time_in_days : Option Int
  price : Option Int
  features : Option (List String)
deriving DecidableEq, Repr

/-- A PATCH body for `OfferDetailView.patch`: optional scalar fields and an
optional list of detail updates. -/
structure PatchPayload where
  title : Option String
  description : Option String
  details : Option (List DetailUpdate)
deriving DecidableEq, Repr

/-- The keys of `existing_by_type`, built once from the offer's Detail rows
in `_update_details`. -/
def detailsByTypeKeys (ds : List Detail) : List String :=
  ds.map (fun d => d.offer_type.toStr)

/-- The `offer_type not in existing_by_type` test: a missing key
(`item.get` returned `None`) is never in the dict. -/
def keyMatches (t : Option String) (keys : List String) : Bool :=
  match t with
  | some s => keys.contains s
  | none => false

/-- The error message of the 400 response for an unknown offer type. -/
def unknownTypeMsg (t : Option String) : String :=
  "Unknown offer_type: " ++ (match t with | some s => s | none => "None")

/-- The `setattr` loop of `_update_details` applied to one Detail row:
overwrite exactly the fields present in the item
(title, revisions, delivery_time_in_days, price, features). -/
def applyItemToDetail (item : DetailUpdate) (d : Detail) : Detail :=
  { d with
    title := item.title.getD d.title,
    revisions := item.revisions.getD d.revisions,
    delivery_time_in_days := item.delivery_time_in_days.getD d.delivery_time_in_days,
    price := item.price.getD d.price,
    features := item.features.getD d.features }

/-- `detail = existing_by_type[offer_type]; ...; detail.save()` for one
payload item: update the Detail row selected by the type key.  The offer's
details have pairwise distinct offer types (creation invariant, and the
update never writes `offer_type`), under which the dictionary lookup
coincides with this update of the matching row. -/
def applyOneUpdate (item : DetailUpdate) (ds : List Detail) : List Detail :=
  ds.map (fun d => if item.offer_type = some d.offer_type.toStr then applyItemToDetail item d else d)

/-- The item loop of `_update_details`: each item is checked against the
key set built at entry, then applied and saved immediately; an unknown
type returns the 400 response at once, leaving the rows already saved for
earlier items in place. -/
def applyDetailUpdates (keys : List String) :
    List DetailUpdate → List Detail → List Detail × Option String
  | [], ds => (ds, none)
  | item :: rest, ds =>
    if keyMatches item.offer_type keys then
      applyDetailUpdates keys rest (applyOneUpdate item ds)
    else
      (ds, some (unknownTypeMsg item.offer_type))

/-- `_update_scalar_fields`: overwrite `title` / `description` when present
in the request body. -/
def updateScalarFields (o : Offer) (p : PatchPayload) : Offer :=
  { o with title := p.title.getD o.title, description := p.description.getD o.description }

/-- `_recalc_and_save`: if the offer has Detail rows, recompute
`min_price` and `min_delivery_time` as the Python `min` over them, then
save the offer row. -/
def recalcAndSave (o : Offer) : Offer :=
  match o.details with
  | [] => o
  | d :: ds =>
    { o with
      min_price := (ds.map (·.price)).foldl min d.price,
      min_delivery_time := (ds.map (·.delivery_time_in_days)).foldl min d.delivery_time_in_days }

/-- `OfferDetailView.patch`: apply detail updates (an error response is
returned immediately, after the rows already processed were saved), then
scalar updates, then the recalculation, returning the resulting offer
state and an optional error. -/
def offerPatch (o : Offer) (p : PatchPayload) : Offer × Option String :=
  match p.details with
  | none => (recalcAndSave (updateScalarFields o p), none)
  | some items =>
    match applyDetailUpdates (detailsByTypeKeys o.details) items o.details with
    | (ds, some e) => ({ o with details := ds }, some e)
    | (ds, none) => (recalcAndSave (updateScalarFields { o with details := ds } p), none)

/-! ### Orders (`orders_app/models.py`, `orders_app/api/`) -/

/-- A row of the `Order` model: references to the customer and business
users plus a copied snapshot of the ordered Detail's fields.  `offer_type`
and `status` are `CharField`s with choices; `status` is kept as the stored
string, since the view compares raw strings. -/
structure Order where
  id : Nat
  customer_user : Nat
  business_user : Nat
  title : String
  revisions : Int
  delivery_time_in_days : Int
  price : Int
  features : List String
  offer_type : OfferType
  status : String
deriving DecidableEq, Repr

/-- The stored values of `Order.Status.choices`:
in_progress, completed, canceled. -/
def validStatuses : List String := ["in_progress", "completed", "canceled"]

/-- The authenticated user of a request (`request.user` when
`is_authenticated` holds): account id and the account's `type` field.
An unauthenticated request carries `none` instead. -/
structure AuthUser where
  id : Nat
  utype : String
deriving DecidableEq, Repr

/-- `OrderCreateSerializer.create` after the Detail lookup succeeded:
`Order.objects.create` copying the Detail's fields, with the parent
offer's owner as `business_user` and status `IN_PROGRESS`. -/
def orderCreate (newId customerId businessId : Nat) (d : Detail) : Order :=
  { id := newId, customer_user := customerId, business_user := businessId,
    title := d.title, revisions := d.revisions,
    delivery_time_in_days := d.delivery_time_in_days, price := d.price,
    features := d.features, offer_type := d.offer_type,
    status := "in_progress" }

/-- The lookup `Detail.objects.select_related('offer', 'offer__user').get(id=...)`
over the offer store: returns the parent Offer together with the Detail. -/
def findDetail : List Offer → Nat → Option (Offer × Detail)
  | [], _ => none
  | o :: rest, did =>
    match o.details.find? (fun d => d.id = did) with
    | some d => some (o, d)
    | none => findDetail rest did

/-- The persistent rows the order claims range over: the offer store and
the order store. -/
structure MarketState where
  offers : List Offer
  orders : List Order
deriving DecidableEq, Repr

/-- CreateOrder (`OrderCreateSerializer.create` plus the view's
`get_object_or_404`): resolve `offer_detail_id`; on failure the state is
untouched and an error is raised; on success a new Order row snapshotting
the Detail is appended. -/
def createOrderInState (st : MarketState) (newId customerId did : Nat) :
    MarketState × Option Order :=
  match findDetail st.offers did with
  | none => (st, none)
  | some (o, d) =>
    let ord := orderCreate newId customerId o.user d
    ({ st with orders := st.orders ++ [ord] }, some ord)

/-- UpdateOffer at the store level: `OfferDetailView.patch` applied to the
offer with the given id; Order rows are not read or written by the view. -/
def patchOfferInState (st : MarketState) (oid : Nat) (p : PatchPayload) : MarketState :=
  { st with offers := st.offers.map (fun o => if o.id = oid then (offerPatch o p).1 else o) }

/-- `OrderListCreateView.get_queryset`: empty queryset for an
unauthenticated user; customers see their own orders, every other
authenticated user sees the orders addressed to them as business.  (The
`-created_at` ordering is not modelled; no claim concerns ordering.) -/
def ordersGetQueryset (user : Option AuthUser) (orders : List Order) : List Order :=
  match user with
  | none => []
  | some u =>
    if u.utype = "customer" then
      orders.filter (fun ord => ord.customer_user = u.id)
    else
      orders.filter (fun ord => ord.business_user = u.id)

/-- The GET branch of `OrderListCreateView` as dispatched by DRF:
`get_permissions` returns `[IsAuthenticated()]` for GET, so an
unauthenticated request is rejected with 401 before `get_queryset` runs. -/
def ordersListGet (user : Option AuthUser) (orders : List Order) : Except Nat (List Order) :=
  match user with
  | none => .error 401
  | some u => .ok (ordersGetQueryset (some u) orders)

/-- `OrderDetailView.patch`: 403 unless the requester is the order's
business user; 400 when `status` is missing or not one of the valid
choices; otherwise the status is overwritten and saved, with no check of
the order's current status.  Returns the resulting order row and the HTTP
status code. -/
def orderStatusPatch (ord : Order) (user : Option AuthUser)
    (newStatus : Option String) : Order × Nat :=
  match user with
  | none => (ord, 403)
  | some u =>
    if ord.business_user ≠ u.id then (ord, 403)
    else
      match newStatus with
      | none => (ord, 400)
      | some s =>
        if validStatuses.contains s then ({ ord with status := s }, 200)
        else (ord, 400)

/-! ### Reviews (`reviews_app/models.py`, `reviews_app/api/serializers.py`) -/

/-- A row of the `Review` model: the reviewed business user, the
reviewer, a rating and a description. -/
structure Review where
  id : Nat
  business_user : Nat
  reviewer : Nat
  rating : Int
  description : String
deriving DecidableEq, Repr

/-- CreateReview (`ReviewSerializer.validate` followed by the model
create): if a Review by the same reviewer for the same business user
already exists, a ValidationError is raised and nothing is persisted;
otherwise the new row is inserted with `reviewer` taken from the request
user. -/
def reviewCreate (reviews : List Review) (newId reviewerId businessId : Nat)
    (rating : Int) (description : String) : List Review × Option String :=
  if reviews.any (fun r => r.reviewer = reviewerId && r.business_user = businessId) then
    (reviews, some "You have already rated this user.")
  else
    (reviews ++ [{ id := newId, business_user := businessId, reviewer := reviewerId,
                   rating := rating, description := description }], none)

/-- At most one Review per (reviewer, business_user) pair. -/
def atMostOnePerPair (reviews : List Review) : Prop :=
  reviews.Pairwise (fun a b => ¬ (a.reviewer = b.reviewer ∧ a.business_user = b.business_user))

/-! ### Registration (`auth_app/api/serializers.py`, RegistrationSerializer) -/

/-- A row of the `User` model restricted to the fields registration
writes; the password hash is produced by the framework's `set_password`
(an external collaborator per the spec) and is not modelled. -/
structure Account where
  id : Nat
  username : String
  email : String
  utype : String
deriving DecidableEq, Repr

/-- The validated registration payload. -/
structure RegistrationData where
  username : String
  email : String
  password : String
  repeated_password : String
  utype : String
deriving DecidableEq, Repr

/-- `RegistrationSerializer.save`: mismatching passwords raise first, then
an email already present in the user table raises `Email already exists`;
otherwise the new account is persisted. -/
def registrationSave (accounts : List Account) (newId : Nat)
    (d : RegistrationData) : List Account × Option String :=
  if d.password ≠ d.repeated_password then
    (accounts, some "passwords dont match")
  else if accounts.any (fun a => a.email = d.email) then
    (accounts, some "Email already exists")
  else
    (accounts ++ [{ id := newId, username := d.username, email := d.email,
                    utype := d.utype }], none)

/-! ### Dashboard (`dashboard_app/api/views.py`, DashboardOverviewView) -/

/-- `Review.objects.aggregate(avg_rating=Avg('rating'))`: `none` when no
rows exist, otherwise the exact mean of the ratings.  (The database
returns the mean as a float; ratings are integers in 0..5, and every value
the claims evaluate is exactly representable, so the exact rational is
used.) -/
def avgRating (ratings : List Int) : Option ℚ :=
  match ratings with
  | [] => none
  | _ => some (((ratings.map (fun r => (r : ℚ))).sum) / (ratings.length : ℚ))

/-- Python `round` to an integer: round half to even (banker's rounding). -/
def roundHalfEven (q : ℚ) : ℤ :=
  if q - ⌊q⌋ < 1/2 then ⌊q⌋
  else if q - ⌊q⌋ > 1/2 then ⌊q⌋ + 1
  else if ⌊q⌋ % 2 = 0 then ⌊q⌋ else ⌊q⌋ + 1

/-- Python `round(x, 1)`: banker's rounding at one decimal place. -/
def round1 (q : ℚ) : ℚ := (roundHalfEven (10 * q) : ℚ) / 10

/-- The `average_rating` field of the dashboard response:
`round(avg_rating, 1) if avg_rating is not None else 0.0`. -/
def dashboardAverageRating (ratings : List Int) : ℚ :=
  match avgRating ratings with
  | none => 0
  | some q => round1 q

/-- The mean of a list of integer ratings, written from the spec's words
("the mean of all Review ratings") for comparison with the code path. -/
def listMean (ratings : List Int) : ℚ :=
  ((ratings.map (fun r => (r : ℚ))).sum) / (ratings.length : ℚ)

/-! ### Derived notions and concrete instances used by the claims -/

/-- `m` is the minimum of the list `xs`: it occurs in `xs` and bounds
every element from below. -/
def isMinOf (m : Int) (xs : List Int) : Prop :=
  m ∈ xs ∧ ∀ x ∈ xs, m ≤ x

/-- A sequence of UpdateOffer (PATCH) requests applied to one offer; the
persisted offer state after each request is the first component of
`offerPatch`, whether or not the request succeeded. -/
def applyPatches (o : Offer) (ps : List PatchPayload) : Offer :=
  ps.foldl (fun o p => (offerPatch o p).1) o

/-- The detail payload of the spec's §8 scenario: basic at price 10 /
5 days, standard at price 20 / 3 days, premium at price 40 / 1 day. -/
def demoDetailData : List DetailData :=
  [ { title := "b", revisions := 1, delivery_time_in_days := 5, price := 10,
      features := ["f1"], offer_type := .basic },
    { title := "s", revisions := 2, delivery_time_in_days := 3, price := 20,
      features := [], offer_type := .standard },
    { title := "p", revisions := 3, delivery_time_in_days := 1, price := 40,
      features := [], offer_type := .premium } ]

/-- A well-formed CreateOffer payload built from `demoDetailData`. -/
def demoPayload : OfferCreatePayload :=
  { title := "offer", description := "d", details := demoDetailData }

/-- The offer persisted by `createOffer 1 1 1 demoPayload`. -/
def demoCreatedOffer : Offer := createOfferCore 1 1 1 demoPayload

/-- A CreateOffer payload with an empty detail list (rejected). -/
def emptyDetailsPayload : OfferCreatePayload :=
  { title := "offer", description := "d", details := [] }

/-- A PATCH payload whose first detail item is a valid update of the
basic tier and whose second item carries the unknown type `gold`. -/
def partialBadPatch : PatchPayload :=
  { title := none, description := none,
    details := some
      [ { offer_type := some "basic", title := none, revisions := none,
          delivery_time_in_days := none, price := some 99, features := none },
        { offer_type := some "gold", title := none, revisions := none,
          delivery_time_in_days := none, price := some 7, features := none } ] }

/-- A valid PATCH payload raising the standard tier's price. -/
def goodPatch : PatchPayload :=
  { title := some "new title", description := none,
    details := some
      [ { offer_type := some "standard", title := none, revisions := none,
          delivery_time_in_days := none, price := some 25, features := none } ] }

/-- A completed order of business user 3, used as concrete input. -/
def completedOrder : Order :=
  { id := 1, customer_user := 2, business_user := 3, title := "t",
    revisions := 0, delivery_time_in_days := 0, price := 0, features := [],
    offer_type := .basic, status := "completed" }

/-- A store state holding the demo offer and no orders. -/
def demoState : MarketState := { offers := [demoCreatedOffer], orders := [] }

/-- The business account (id 3) of `completedOrder`, authenticated. -/
def businessUser3 : AuthUser := { id := 3, utype := "business" }

/-- The order created from the demo offer's standard Detail (id 2) by
customer 7: the spec §8 scenario order (price 20, 3 days, in_progress). -/
def demoOrder : Order :=
  { id := 1, customer_user := 7, business_user := 1, title := "s", revisions := 2,
    delivery_time_in_days := 3, price := 20, features := [], offer_type := .standard,
    status := "in_progress" }

/-- `demoState` after customer 7 ordered Detail 2. -/
def demoStateAfterOrder : MarketState :=
  { offers := [demoCreatedOffer], orders := [demoOrder] }

/-- Reviewer 7's existing review of business 3. -/
def demoReview : Review :=
  { id := 1, business_user := 3, reviewer := 7, rating := 5, description := "ok" }

/-- A one-element review store: reviewer 7 has rated business 3. -/
def demoReviews : List Review := [demoReview]

/-- The account created by `demoRegistration` as account 1. -/
def demoAccount : Account :=
  { id := 1, username := "alice", email := "alice@example.com", utype := "customer" }

/-- A registration payload for alice@example.com. -/
def demoRegistration : RegistrationData :=
  { username := "alice", email := "alice@example.com", password := "pw",
    repeated_password := "pw", utype := "customer" }

/-- A second registration payload reusing alice's email. -/
def demoRegistration2 : RegistrationData :=
  { username := "bob", email := "alice@example.com", password := "pw2",
    repeated_password := "pw2", utype := "business" }

/-! ## Helper lemmas -/

theorem foldl_min_le_init : ∀ (xs : List Int) (x : Int), xs.foldl min x ≤ x
  | [], _ => le_refl _
  | y :: ys, x =>
    le_trans (foldl_min_le_init ys (min x y)) (min_le_left x y)

theorem foldl_min_le_mem : ∀ (xs : List Int) (x y : Int), y ∈ xs → xs.foldl min x ≤ y
  | z :: ys, x, y, h => by
    rcases List.mem_cons.mp h with h1 | h2
    · subst h1
      exact le_trans (foldl_min_le_init ys (min x y)) (min_le_right x y)
    · exact foldl_min_le_mem ys (min x z) y h2

theorem foldl_min_init_or_mem : ∀ (xs : List Int) (x : Int),
    xs.foldl min x = x ∨ xs.foldl min x ∈ xs
  | [], _ => Or.inl rfl
  | y :: ys, x => by
    rcases foldl_min_init_or_mem ys (min x y) with h | h
    · rcases min_choice x y with h2 | h2
      · exact Or.inl (by rw [List.foldl_cons, h, h2])
      · exact Or.inr (by rw [List.foldl_cons, h, h2]; exact List.mem_cons_self y ys)
    · exact Or.inr (List.mem_cons_of_mem y h)

theorem isMinOf_foldl (x : Int) (xs : List Int) : isMinOf (xs.foldl min x) (x :: xs) := by
  constructor
  · rcases foldl_min_init_or_mem xs x with h | h
    · rw [h]; exact List.mem_cons_self x xs
    · exact List.mem_cons_of_mem x h
  · intro y hy
    rcases List.mem_cons.mp hy with h1 | h2
    · rw [h1]; exact foldl_min_le_init xs x
    · exact foldl_min_le_mem xs x y h2

theorem stepMin_some (x v : Int) : stepMin (some x) v = some (min x v) := by
  show (if v < x then some v else some x) = some (min x v)
  split
  · next h => rw [min_eq_right (le_of_lt h)]
  · next h => rw [min_eq_left (not_lt.mp h)]

theorem foldl_stepMin_some : ∀ (xs : List Int) (x : Int),
    xs.foldl stepMin (some x) = some (xs.foldl min x)
  | [], _ => rfl
  | y :: ys, x => by
    rw [List.foldl_cons, stepMin_some, foldl_stepMin_some ys (min x y), List.foldl_cons]

theorem stepMin_getD_isMinOf : ∀ (l : List Int), l ≠ [] →
    isMinOf ((l.foldl stepMin none).getD 0) l
  | [], h => absurd rfl h
  | p :: ps, _ => by
    have : (p :: ps).foldl stepMin none = some (ps.foldl min p) := by
      rw [List.foldl_cons]
      exact foldl_stepMin_some ps p
    rw [this]
    exact isMinOf_foldl p ps

theorem mkDetails_map_price : ∀ (base : Nat) (dds : List DetailData),
    (mkDetails base dds).map (·.price) = dds.map (·.price)
  | _, [] => rfl
  | base, dd :: rest => by
    simp only [mkDetails, List.map_cons, mkDetails_map_price (base + 1) rest]
    rfl

theorem mkDetails_map_delivery : ∀ (base : Nat) (dds : List DetailData),
    (mkDetails base dds).map (·.delivery_time_in_days) = dds.map (·.delivery_time_in_days)
  | _, [] => rfl
  | base, dd :: rest => by
    simp only [mkDetails, List.map_cons, mkDetails_map_delivery (base + 1) rest]
    rfl

theorem mkDetails_map_type : ∀ (base : Nat) (dds : List DetailData),
    (mkDetails base dds).map (·.offer_type) = dds.map (·.offer_type)
  | _, [] => rfl
  | base, dd :: rest => by
    simp only [mkDetails, List.map_cons, mkDetails_map_type (base + 1) rest]
    rfl

theorem mkDetails_length : ∀ (base : Nat) (dds : List DetailData),
    (mkDetails base dds).length = dds.length
  | _, [] => rfl
  | base, _ :: rest => by
    simp only [mkDetails, List.length_cons, mkDetails_length (base + 1) rest]

theorem validate_details_ok_inv {value v : List DetailData}
    (h : validate_details value = .ok v) :
    v = value ∧ value.length = 3 ∧ typesMatch (value.map (·.offer_type)) = true := by
  unfold validate_details at h
  split_ifs at h with h1 h2
  exact ⟨(Except.ok.inj h).symm, not_ne_iff.mp h1, h2⟩

theorem createOffer_ok_inv {uid oid base : Nat} {p : OfferCreatePayload} {o : Offer}
    (h : createOffer uid oid base p = .ok o) :
    o = createOfferCore uid oid base p ∧ p.details.length = 3 ∧
      typesMatch (p.details.map (·.offer_type)) = true := by
  unfold createOffer at h
  cases hv : validate_details p.details with
  | error e => rw [hv] at h; cases h
  | ok v =>
    rw [hv] at h
    obtain ⟨rfl, h3, hm⟩ := validate_details_ok_inv hv
    refine ⟨?_, h3, hm⟩
    change Except.ok (createOfferCore uid oid base p) = Except.ok o at h
    exact (Except.ok.inj h).symm

theorem applyOneUpdate_map_type : ∀ (item : DetailUpdate) (ds : List Detail),
    (applyOneUpdate item ds).map (·.offer_type) = ds.map (·.offer_type)
  | _, [] => rfl
  | item, d :: ds => by
    have ih := applyOneUpdate_map_type item ds
    simp only [applyOneUpdate, List.map_cons] at ih ⊢
    refine congrArg₂ List.cons ?_ ih
    split <;> rfl

theorem applyDetailUpdates_map_type : ∀ (items : List DetailUpdate) (keys : List String)
    (ds : List Detail),
    ((applyDetailUpdates keys items ds).1).map (·.offer_type) = ds.map (·.offer_type)
  | [], _, _ => rfl
  | item :: rest, keys, ds => by
    simp only [applyDetailUpdates]
    split
    · rw [applyDetailUpdates_map_type rest keys (applyOneUpdate item ds),
        applyOneUpdate_map_type]
    · rfl

theorem applyDetailUpdates_fst_length (items : List DetailUpdate) (keys : List String)
    (ds : List Detail) : ((applyDetailUpdates keys items ds).1).length = ds.length := by
  have h := congrArg List.length (applyDetailUpdates_map_type items keys ds)
  simpa using h

theorem recalcAndSave_details (o : Offer) : (recalcAndSave o).details = o.details := by
  unfold recalcAndSave
  split <;> rfl

theorem recalcAndSave_isMin (o : Offer) (h : o.details ≠ []) :
    isMinOf (recalcAndSave o).min_price ((recalcAndSave o).details.map (·.price)) ∧
    isMinOf (recalcAndSave o).min_delivery_time
      ((recalcAndSave o).details.map (·.delivery_time_in_days)) := by
  cases hd : o.details with
  | nil => exact absurd hd h
  | cons d ds =>
    have h1 : recalcAndSave o =
        { o with
          min_price := (ds.map (·.price)).foldl min d.price,
          min_delivery_time := (ds.map (·.delivery_time_in_days)).foldl min d.delivery_time_in_days } := by
      unfold recalcAndSave
      rw [hd]
    rw [h1]
    constructor
    · show isMinOf ((ds.map (·.price)).foldl min d.price) (o.details.map (·.price))
      rw [hd]
      simpa only [List.map_cons] using isMinOf_foldl d.price (ds.map (·.price))
    · show isMinOf ((ds.map (·.delivery_time_in_days)).foldl min d.delivery_time_in_days)
        (o.details.map (·.delivery_time_in_days))
      rw [hd]
      simpa only [List.map_cons] using
        isMinOf_foldl d.delivery_time_in_days (ds.map (·.delivery_time_in_days))

theorem perm_of_typesMatch {ts : List OfferType} (h3 : ts.length = 3)
    (hm : typesMatch ts = true) : ts.Perm requiredTypes := by
  obtain ⟨a, b, c, rfl⟩ : ∃ a b c, ts = [a, b, c] := by
    match ts, h3 with
    | [a, b, c], _ => exact ⟨a, b, c, rfl⟩
  revert hm
  cases a <;> cases b <;> cases c <;> decide

theorem typesMatch_iff (ts : List OfferType) :
    typesMatch ts = true ↔ (∀ t ∈ requiredTypes, t ∈ ts) ∧ ∀ t ∈ ts, t ∈ requiredTypes := by
  simp [typesMatch]

theorem typesMatch_of_perm {ts : List OfferType} (h : ts.Perm requiredTypes) :
    typesMatch ts = true := by
  rw [typesMatch_iff]
  exact ⟨fun t ht => h.mem_iff.mpr ht, fun t ht => h.mem_iff.mp ht⟩

/-- Claim C1: immediately after CreateOffer, and immediately after any
successfully completed UpdateOffer (PATCH), the persisted `min_price` is
the minimum of `price` over the offer's Details and `min_delivery_time`
is the minimum of `delivery_time_in_days` over them. -/
theorem offer_min_fields_correct :
    (∀ (uid oid base : Nat) (p : OfferCreatePayload) (o : Offer),
        createOffer uid oid base p = .ok o →
        isMinOf o.min_price (o.details.map (·.price)) ∧
        isMinOf o.min_delivery_time (o.details.map (·.delivery_time_in_days)))
    ∧ (∀ (o : Offer) (p : PatchPayload) (o' : Offer),
        o.details ≠ [] → offerPatch o p = (o', none) →
        isMinOf o'.min_price (o'.details.map (·.price)) ∧
        isMinOf o'.min_delivery_time (o'.details.map (·.delivery_time_in_days))) := by
  constructor
  · intro uid oid base p o ho
    obtain ⟨rfl, h3, -⟩ := createOffer_ok_inv ho
    have hlen : (mkDetails base p.details).length = 3 := by
      rw [mkDetails_length]; exact h3
    constructor
    · show isMinOf ((((mkDetails base p.details).map (·.price)).foldl stepMin none).getD 0)
        ((mkDetails base p.details).map (·.price))
      apply stepMin_getD_isMinOf
      intro hc
      have := congrArg List.length hc
      rw [List.length_map, hlen] at this
      exact absurd this (by simp)
    · show isMinOf
        ((((mkDetails base p.details).map (·.delivery_time_in_days)).foldl stepMin none).getD 0)
        ((mkDetails base p.details).map (·.delivery_time_in_days))
      apply stepMin_getD_isMinOf
      intro hc
      have := congrArg List.length hc
      rw [List.length_map, hlen] at this
      exact absurd this (by simp)
  · intro o p o' hne hp
    unfold offerPatch at hp
    split at hp
    · have h1 : recalcAndSave (updateScalarFields o p) = o' := (Prod.mk.inj hp).1
      rw [← h1]
      exact recalcAndSave_isMin (updateScalarFields o p) hne
    · split at hp
      · exact absurd (Prod.mk.inj hp).2 (by simp)
      · next ds heq =>
        have h1 : recalcAndSave (updateScalarFields { o with details := ds } p) = o' :=
          (Prod.mk.inj hp).1
        rw [← h1]
        apply recalcAndSave_isMin
        show ds ≠ []
        intro hcon
        have hl : ds.length = o.details.length := by
          have h2 := congrArg (fun q => q.1.length) heq
          simpa [applyDetailUpdates_fst_length] using h2.symm
        rw [hcon] at hl
        exact hne (List.eq_nil_of_length_eq_zero hl.symm)

/-- Witness for C1: the spec §8 scenario offer (tiers at prices 10/20/40
and delivery times 5/3/1) has correctly cached minimum fields. -/
theorem offer_min_fields_correct_witness :
    isMinOf demoCreatedOffer.min_price (demoCreatedOffer.details.map (·.price)) ∧
    isMinOf demoCreatedOffer.min_delivery_time
      (demoCreatedOffer.details.map (·.delivery_time_in_days)) :=
  offer_min_fields_correct.1 1 1 1 demoPayload demoCreatedOffer rfl

/-- Claim C4: CreateOffer accepts the nested details exactly when they are
three items whose offer types are a permutation of basic, standard,
premium (no duplicates, no omissions); otherwise it fails with a
ValidationError and the offer store is unchanged. -/
theorem createOffer_details_validation :
    ∀ (uid oid base : Nat) (p : OfferCreatePayload) (store : List Offer),
      ((∃ o, createOffer uid oid base p = .ok o) ↔
        (p.details.map (·.offer_type)).Perm requiredTypes)
      ∧ (∀ e, createOffer uid oid base p = .error e →
          createOfferInStore store uid oid base p = (store, .error e)) := by
  intro uid oid base p store
  constructor
  · constructor
    · rintro ⟨o, ho⟩
      obtain ⟨-, h3, hm⟩ := createOffer_ok_inv ho
      exact perm_of_typesMatch (by simpa using h3) hm
    · intro hp
      have h3 : p.details.length = 3 := by
        have := hp.length_eq
        simpa [requiredTypes] using this
      have hm : typesMatch (p.details.map (·.offer_type)) = true := typesMatch_of_perm hp
      have hv : validate_details p.details = .ok p.details := by
        unfold validate_details
        rw [if_neg (by simp [h3]), if_neg (by simp [hm])]
      refine ⟨createOfferCore uid oid base p, ?_⟩
      unfold createOffer
      rw [hv]
  · intro e he
    unfold createOfferInStore
    rw [he]

/-- Witness for C4: a payload with an empty detail list is rejected with
the count error and leaves the store untouched. -/
theorem createOffer_details_validation_witness :
    createOfferInStore [] 1 1 1 emptyDetailsPayload =
      ([], .error "An offer must contain exactly 3 details.") :=
  (createOffer_details_validation 1 1 1 emptyDetailsPayload []).2 _ rfl

theorem applyDetailUpdates_append_bad : ∀ (pre : List DetailUpdate) (keys : List String)
    (ds : List Detail) (bad : DetailUpdate) (post : List DetailUpdate),
    (∀ i ∈ pre, keyMatches i.offer_type keys = true) →
    keyMatches bad.offer_type keys = false →
    applyDetailUpdates keys (pre ++ bad :: post) ds =
      ((applyDetailUpdates keys pre ds).1, some (unknownTypeMsg bad.offer_type))
  | [], keys, ds, bad, post, _, hbad => by
    simp only [List.nil_append, applyDetailUpdates, hbad, Bool.false_eq_true, if_false]
  | item :: rest, keys, ds, bad, post, hpre, hbad => by
    have hitem : keyMatches item.offer_type keys = true := hpre item (List.mem_cons_self _ _)
    simp only [List.cons_append, applyDetailUpdates, hitem, if_true]
    exact applyDetailUpdates_append_bad rest keys (applyOneUpdate item ds) bad post
      (fun i hi => hpre i (List.mem_cons_of_mem _ hi)) hbad

theorem offerPatch_some_err (o : Offer) (p : PatchPayload) (items : List DetailUpdate)
    (ds : List Detail) (e : String)
    (hpd : p.details = some items)
    (hau : applyDetailUpdates (detailsByTypeKeys o.details) items o.details = (ds, some e)) :
    offerPatch o p = ({ o with details := ds }, some e) := by
  unfold offerPatch
  rw [hpd]
  simp only [hau]

theorem updateScalarFields_details (o : Offer) (p : PatchPayload) :
    (updateScalarFields o p).details = o.details := rfl

theorem offerPatch_map_type (o : Offer) (p : PatchPayload) :
    (offerPatch o p).1.details.map (·.offer_type) = o.details.map (·.offer_type) := by
  unfold offerPatch
  split
  · simp [recalcAndSave_details, updateScalarFields_details]
  · next items heq =>
    split
    · next ds e heq2 =>
      have h := applyDetailUpdates_map_type items (detailsByTypeKeys o.details) o.details
      rw [heq2] at h
      exact h
    · next ds heq2 =>
      have h := applyDetailUpdates_map_type items (detailsByTypeKeys o.details) o.details
      rw [heq2] at h
      simpa [recalcAndSave_details, updateScalarFields_details] using h

theorem applyPatches_map_type : ∀ (ps : List PatchPayload) (o : Offer),
    (applyPatches o ps).details.map (·.offer_type) = o.details.map (·.offer_type)
  | [], _ => rfl
  | p :: ps, o => by
    show (applyPatches ((offerPatch o p).1) ps).details.map (·.offer_type)
      = o.details.map (·.offer_type)
    rw [applyPatches_map_type ps, offerPatch_map_type]

/-- Counterexample to C3: on the demo offer, a PATCH whose detail items
are a valid basic update (price 99) followed by an item of unknown type
gold fails with the unknown-type error, yet the basic Detail has already
been modified and saved — the operation is not free of partial
application. -/
theorem offerPatch_partial_application_cex :
    (offerPatch demoCreatedOffer partialBadPatch).2 = some "Unknown offer_type: gold" ∧
    (offerPatch demoCreatedOffer partialBadPatch).1.details.map (·.price) = [99, 20, 40] ∧
    demoCreatedOffer.details.map (·.price) = [10, 20, 40] :=
  ⟨rfl, rfl, rfl⟩

/-- Claim C3 (amended): when the PATCH detail payload contains an item
whose offer_type matches none of the offer's Details, the operation fails
with a validation error naming that type; the offending item and all
items after it are not applied, and the offer row itself (title,
description, cached minima) is not updated, but the items before the
first offending one have already been applied and saved to their
Details. -/
theorem offerPatch_unknown_type_partial :
    ∀ (o : Offer) (p : PatchPayload) (pre : List DetailUpdate) (bad : DetailUpdate)
      (post : List DetailUpdate),
      p.details = some (pre ++ bad :: post) →
      (∀ i ∈ pre, keyMatches i.offer_type (detailsByTypeKeys o.details) = true) →
      keyMatches bad.offer_type (detailsByTypeKeys o.details) = false →
      offerPatch o p =
        ({ o with details :=
            (applyDetailUpdates (detailsByTypeKeys o.details) pre o.details).1 },
          some (unknownTypeMsg bad.offer_type)) := by
  intro o p pre bad post hpd hpre hbad
  exact offerPatch_some_err o p (pre ++ bad :: post) _ _ hpd
    (applyDetailUpdates_append_bad pre _ o.details bad post hpre hbad)

/-- Witness for the amended C3 at the demo offer: the good basic update is
applied, the gold item aborts the request with the 400 error. -/
theorem offerPatch_unknown_type_partial_witness :
    offerPatch demoCreatedOffer partialBadPatch =
      ({ demoCreatedOffer with details :=
          (applyDetailUpdates (detailsByTypeKeys demoCreatedOffer.details)
            [⟨some "basic", none, none, none, some 99, none⟩]
            demoCreatedOffer.details).1 },
        some (unknownTypeMsg (some "gold"))) :=
  offerPatch_unknown_type_partial demoCreatedOffer partialBadPatch
    [⟨some "basic", none, none, none, some 99, none⟩]
    ⟨some "gold", none, none, none, some 7, none⟩ [] rfl (by decide) rfl

/-- Claim C10: UpdateOffer requests can never change a Detail's
offer_type, create a Detail, or delete one — the list of offer types over
an offer's Details is invariant under any sequence of PATCH requests, and
for an offer produced by CreateOffer it remains exactly
basic/standard/premium. -/
theorem offer_types_invariant :
    (∀ (o : Offer) (ps : List PatchPayload),
        (applyPatches o ps).details.map (·.offer_type) = o.details.map (·.offer_type))
    ∧ (∀ (uid oid base : Nat) (p : OfferCreatePayload) (o : Offer),
        createOffer uid oid base p = .ok o → ∀ ps : List PatchPayload,
          ((applyPatches o ps).details.map (·.offer_type)).Perm requiredTypes) := by
  constructor
  · intro o ps
    exact applyPatches_map_type ps o
  · intro uid oid base p o ho ps
    obtain ⟨rfl, h3, hm⟩ := createOffer_ok_inv ho
    rw [applyPatches_map_type]
    show ((mkDetails base p.details).map (·.offer_type)).Perm requiredTypes
    rw [mkDetails_map_type]
    exact perm_of_typesMatch (by simpa using h3) hm

/-- Witness for C10: after a valid detail update on the demo offer the
offer types are still exactly basic, standard, premium. -/
theorem offer_types_invariant_witness :
    ((applyPatches demoCreatedOffer [goodPatch]).details.map (·.offer_type)).Perm requiredTypes :=
  offer_types_invariant.2 1 1 1 demoPayload demoCreatedOffer rfl [goodPatch]

/-- Claim C2: a created Order snapshots the source Detail's fields (title,
revisions, delivery_time_in_days, price, features, offer_type) at
creation time, with status in_progress, the acting customer, and the
offer owner as business user; and UpdateOffer never reads or writes Order
rows, so later offer or detail mutations leave every existing Order
unchanged. -/
theorem order_snapshot_correct :
    (∀ (st : MarketState) (newId cid did : Nat) (st' : MarketState) (ord : Order),
        createOrderInState st newId cid did = (st', some ord) →
        ∃ o d, findDetail st.offers did = some (o, d) ∧
          ord.title = d.title ∧ ord.revisions = d.revisions ∧
          ord.delivery_time_in_days = d.delivery_time_in_days ∧ ord.price = d.price ∧
          ord.features = d.features ∧ ord.offer_type = d.offer_type ∧
          ord.status = "in_progress" ∧ ord.customer_user = cid ∧
          ord.business_user = o.user ∧ st'.orders = st.orders ++ [ord])
    ∧ (∀ (st : MarketState) (oid : Nat) (p : PatchPayload),
        (patchOfferInState st oid p).orders = st.orders) := by
  constructor
  · intro st newId cid did st' ord h
    unfold createOrderInState at h
    split at h
    · exact absurd (Prod.mk.inj h).2 (by simp)
    · next o d heq =>
      have h1 : ({ st with orders := st.orders ++ [orderCreate newId cid o.user d] }
          : MarketState) = st' := (Prod.mk.inj h).1
      have h2 : orderCreate newId cid o.user d = ord := Option.some.inj (Prod.mk.inj h).2
      refine ⟨o, d, heq, ?_⟩
      rw [← h2, ← h1]
      exact ⟨rfl, rfl, rfl, rfl, rfl, rfl, rfl, rfl, rfl, rfl⟩
  · intro st oid p
    rfl

/-- Witness for C2: customer 7 ordering the demo offer's standard Detail
(id 2) yields the spec §8 scenario order. -/
theorem order_snapshot_correct_witness :
    ∃ o d, findDetail demoState.offers 2 = some (o, d) ∧
      demoOrder.title = d.title ∧ demoOrder.revisions = d.revisions ∧
      demoOrder.delivery_time_in_days = d.delivery_time_in_days ∧
      demoOrder.price = d.price ∧ demoOrder.features = d.features ∧
      demoOrder.offer_type = d.offer_type ∧ demoOrder.status = "in_progress" ∧
      demoOrder.customer_user = 7 ∧ demoOrder.business_user = o.user ∧
      demoStateAfterOrder.orders = demoState.orders ++ [demoOrder] :=
  order_snapshot_correct.1 demoState 1 7 2 demoStateAfterOrder demoOrder rfl

/-- Claim C5: a CreateReview call by a reviewer who already has a Review
for the same business user fails with the duplicate error and persists
nothing; and the create operation preserves the at-most-one-review-per-
(reviewer, business) invariant. -/
theorem review_unique_per_pair :
    (∀ (reviews : List Review) (r : Review) (newId : Nat) (rating : Int) (desc : String),
        r ∈ reviews →
        reviewCreate reviews newId r.reviewer r.business_user rating desc =
          (reviews, some "You have already rated this user."))
    ∧ (∀ (reviews : List Review) (newId rv bz : Nat) (rating : Int) (desc : String),
        atMostOnePerPair reviews →
        atMostOnePerPair (reviewCreate reviews newId rv bz rating desc).1) := by
  constructor
  · intro reviews r newId rating desc hr
    unfold reviewCreate
    split
    · rfl
    · next hany => exact absurd (List.any_eq_true.mpr ⟨r, hr, by simp⟩) hany
  · intro reviews newId rv bz rating desc hinv
    unfold reviewCreate
    split
    · exact hinv
    · next hany =>
      rw [atMostOnePerPair, List.pairwise_append]
      refine ⟨hinv, List.pairwise_singleton _ _, ?_⟩
      intro a ha b hb
      rw [List.mem_singleton] at hb
      subst hb
      rintro ⟨hrv, hbz⟩
      exact hany (List.any_eq_true.mpr ⟨a, ha, by simp [hrv, hbz]⟩)

/-- Witness for C5: reviewer 7's second attempt at business 3 fails and
leaves the review store unchanged. -/
theorem review_unique_per_pair_witness :
    reviewCreate demoReviews 2 demoReview.reviewer demoReview.business_user 4 "again" =
      (demoReviews, some "You have already rated this user.") :=
  review_unique_per_pair.1 demoReviews demoReview 2 4 "again" (List.mem_singleton_self _)

/-- Counterexample to C6: the business user of a completed order can PATCH
its status back to in_progress with a 200 response — completed is not a
terminal state in the code. -/
theorem order_terminal_state_cex :
    completedOrder.status = "completed" ∧
    orderStatusPatch completedOrder (some businessUser3) (some "in_progress") =
      ({ completedOrder with status := "in_progress" }, 200) :=
  ⟨rfl, rfl⟩

/-- Claim C6 (amended): UpdateOrderStatus by the order's business user
sets any of the three valid statuses regardless of the order's current
status (no terminal states are enforced), and rejects an invalid status
with 400 leaving the order unchanged. -/
theorem order_status_patch_amended :
    ∀ (ord : Order) (u : AuthUser) (s : String),
      ord.business_user = u.id →
      (validStatuses.contains s = true →
        orderStatusPatch ord (some u) (some s) = ({ ord with status := s }, 200))
      ∧ (validStatuses.contains s = false →
        orderStatusPatch ord (some u) (some s) = (ord, 400)) := by
  intro ord u s hbu
  constructor
  · intro hs
    show (if ord.business_user ≠ u.id then (ord, 403)
          else if validStatuses.contains s then ({ ord with status := s }, 200)
          else (ord, 400)) = ({ ord with status := s }, 200)
    rw [if_neg (by simp [hbu]), if_pos hs]
  · intro hs
    show (if ord.business_user ≠ u.id then (ord, 403)
          else if validStatuses.contains s then ({ ord with status := s }, 200)
          else (ord, 400)) = (ord, 400)
    rw [if_neg (by simp [hbu]), if_neg (by rw [hs]; exact Bool.false_ne_true)]

/-- Witness for the amended C6: the business user cancels the completed
demo order. -/
theorem order_status_patch_amended_witness :
    orderStatusPatch completedOrder (some businessUser3) (some "canceled") =
      ({ completedOrder with status := "canceled" }, 200) :=
  (order_status_patch_amended completedOrder businessUser3 "canceled" rfl).1 rfl

/-- Counterexample to C7: an unauthenticated ListOrders call is answered
with the 401 error of the IsAuthenticated permission, not with an empty
list. -/
theorem orders_list_unauthenticated_cex :
    ordersListGet none [completedOrder] = Except.error 401 ∧
    ordersListGet none [completedOrder] ≠ Except.ok [] :=
  ⟨rfl, fun h => nomatch h⟩

/-- Claim C7 (amended): an unauthenticated ListOrders call is rejected
with a 401 error by the view's IsAuthenticated permission; the
queryset-building method would return an empty list for an
unauthenticated user, but is never reached in that case. -/
theorem orders_list_unauthenticated_amended :
    ∀ orders : List Order,
      ordersListGet none orders = Except.error 401 ∧
      ordersGetQueryset none orders = [] := by
  intro orders
  exact ⟨rfl, rfl⟩

/-- Claim C8: the dashboard's average_rating is 0 when no reviews exist,
4 for ratings 3, 4, 5, and in general the mean of all ratings rounded to
one decimal place (Python's round-half-to-even). -/
theorem dashboard_average_rating_correct :
    dashboardAverageRating [] = 0 ∧
    dashboardAverageRating [3, 4, 5] = 4 ∧
    ∀ (r : Int) (rs : List Int),
      dashboardAverageRating (r :: rs) = round1 (listMean (r :: rs)) := by
  refine ⟨rfl, ?_, ?_⟩
  · have h1 : avgRating [3, 4, 5] = some 4 := by
      unfold avgRating
      norm_num
    have hfloor : ⌊(40 : ℚ)⌋ = 40 := by
      rw [show ((40 : ℚ)) = ((40 : ℤ) : ℚ) by norm_num, Int.floor_intCast]
    have h2 : roundHalfEven 40 = 40 := by
      unfold roundHalfEven
      rw [hfloor]
      norm_num
    simp only [dashboardAverageRating, h1, round1]
    rw [show (10 : ℚ) * 4 = 40 by norm_num, h2]
    norm_num
  · intro r rs
    rfl

theorem registration_success_inv {accounts st1 : List Account} {newId : Nat}
    {d : RegistrationData} (h : registrationSave accounts newId d = (st1, none)) :
    st1 = accounts ++
      [{ id := newId, username := d.username, email := d.email, utype := d.utype }] := by
  unfold registrationSave at h
  split_ifs at h
  all_goals first
    | exact (Prod.mk.inj h).1.symm
    | exact absurd (Prod.mk.inj h).2 (by simp)

theorem registrationSave_dup_email (accounts : List Account) (a : Account) (newId : Nat)
    (d : RegistrationData) (ha : a ∈ accounts) (hemail : a.email = d.email) :
    (registrationSave accounts newId d).1 = accounts ∧
    ((registrationSave accounts newId d).2).isSome = true := by
  unfold registrationSave
  split_ifs with h1 h2
  all_goals first
    | exact ⟨rfl, rfl⟩
    | exact absurd (List.any_eq_true.mpr ⟨a, ha, by simp [hemail]⟩) h2

/-- Claim C9: a registration whose email is already stored fails with a
ValidationError and creates no Account; in particular of two registration
attempts with the same email at most one succeeds. -/
theorem registration_email_unique :
    (∀ (accounts : List Account) (a : Account) (newId : Nat) (d : RegistrationData),
        a ∈ accounts → a.email = d.email →
        (registrationSave accounts newId d).1 = accounts ∧
        ((registrationSave accounts newId d).2).isSome = true)
    ∧ (∀ (accounts st1 : List Account) (newId1 newId2 : Nat) (d1 d2 : RegistrationData),
        registrationSave accounts newId1 d1 = (st1, none) → d2.email = d1.email →
        (registrationSave st1 newId2 d2).1 = st1 ∧
        ((registrationSave st1 newId2 d2).2).isSome = true) := by
  constructor
  · exact registrationSave_dup_email
  · intro accounts st1 newId1 newId2 d1 d2 hs hemail
    have hst := registration_success_inv hs
    subst hst
    exact registrationSave_dup_email _
      { id := newId1, username := d1.username, email := d1.email, utype := d1.utype }
      newId2 d2 (by simp) hemail.symm

/-- Witness for C9: after alice registers, bob's registration with the
same email fails and stores nothing. -/
theorem registration_email_unique_witness :
    (registrationSave [demoAccount] 2 demoRegistration2).1 = [demoAccount] ∧
    ((registrationSave [demoAccount] 2 demoRegistration2).2).isSome = true :=
  registration_email_unique.2 [] [demoAccount] 1 2 demoRegistration demoRegistration2 rfl rfl

end Coderr
